import Mathlib

/-!
# Frame lifecycle of the SDL3 + SDL_GPU + Dear ImGui example

A shallow embedding of `src/main.cpp`: the four SDL main callbacks
(`SDL_AppInit`, `SDL_AppIterate`, `SDL_AppEvent`, `SDL_AppQuit`) as functions
that return their result, the application state they leave and the trace of
calls they make to the SDL, SDL_GPU and Dear ImGui collaborators.  What a
collaborator answers is an input of the callback (an environment record).
-/

namespace Sdl3GpuImgui

/-! ## Values -/

/-- A pointer to an object owned by a collaborator; `0` is `nullptr`. -/
abbrev Handle := Nat

/-- A C `float`, held as its IEEE 754 binary32 bit pattern. -/
structure F32 where
  bits : Nat
deriving DecidableEq, Repr

/-- Sign bit of a binary32 value. -/
def F32.sign (f : F32) : Nat := (f.bits / 2 ^ 31) % 2

/-- Biased exponent field of a binary32 value. -/
def F32.exponent (f : F32) : Nat := (f.bits / 2 ^ 23) % 256

/-- Fraction field of a binary32 value. -/
def F32.mantissa (f : F32) : Nat := f.bits % 2 ^ 23

/-- Not-a-number: all exponent bits set and a non-zero fraction. -/
def F32.isNaN (f : F32) : Bool := f.exponent == 255 && f.mantissa != 0

/-- Positive or negative zero. -/
def F32.isZero (f : F32) : Bool := f.exponent == 0 && f.mantissa == 0

/-- The C comparison `f <= 0.0f`: false on NaN, true on both zeros, otherwise
decided by the sign. -/
def F32.leZero (f : F32) : Bool := !f.isNaN && (f.isZero || f.sign == 1)

/-- The C comparison `f > 0.0f`. -/
def F32.gtZero (f : F32) : Bool := !f.isNaN && !f.isZero && f.sign == 0

/-- Dear ImGui's two-float vector. -/
structure ImVec2 where
  x : F32
  y : F32
deriving DecidableEq, Repr

/-- Dear ImGui's four-float vector. -/
structure ImVec4 where
  x : F32
  y : F32
  z : F32
  w : F32
deriving DecidableEq, Repr

/-- SDL's four-channel float colour. -/
structure SDL_FColor where
  r : F32
  g : F32
  b : F32
  a : F32
deriving DecidableEq, Repr

/-- What an SDL main callback returns. -/
inductive SDL_AppResult
  | SDL_APP_CONTINUE
  | SDL_APP_SUCCESS
  | SDL_APP_FAILURE
deriving DecidableEq, Repr

/-- Swapchain composition modes of SDL_GPU. -/
inductive SDL_GPUSwapchainComposition
  | SDR
  | SDR_LINEAR
  | HDR_EXTENDED_LINEAR
  | HDR10_ST2084
deriving DecidableEq, Repr

/-- Presentation modes of SDL_GPU. -/
inductive SDL_GPUPresentMode
  | VSYNC
  | IMMEDIATE
  | MAILBOX
deriving DecidableEq, Repr

/-- Load operations of a render-pass attachment. -/
inductive SDL_GPULoadOp
  | LOAD
  | CLEAR
  | DONT_CARE
deriving DecidableEq, Repr

/-- Store operations of a render-pass attachment. -/
inductive SDL_GPUStoreOp
  | STORE
  | DONT_CARE
  | RESOLVE
  | RESOLVE_AND_STORE
deriving DecidableEq, Repr

/-- Sample counts of SDL_GPU. -/
inductive SDL_GPUSampleCount
  | SAMPLECOUNT_1
  | SAMPLECOUNT_2
  | SAMPLECOUNT_4
  | SAMPLECOUNT_8
deriving DecidableEq, Repr

/-- The fields of `SDL_GPUColorTargetInfo` that `SDL_AppIterate` assigns; the
remaining fields stay zero after `target_info = {}`. -/
structure SDL_GPUColorTargetInfo where
  texture : Handle
  clear_color : SDL_FColor
  load_op : SDL_GPULoadOp
  store_op : SDL_GPUStoreOp
  mip_level : Nat
  layer_or_depth_plane : Nat
  cycle : Bool
deriving DecidableEq, Repr

/-- The fields of `ImGui_ImplSDLGPU3_InitInfo` that `SDL_AppInit` assigns. -/
structure ImGui_ImplSDLGPU3_InitInfo where
  Device : Handle
  ColorTargetFormat : Nat
  MSAASamples : SDL_GPUSampleCount
deriving DecidableEq, Repr

/-- The `window` member of the `SDL_Event` union, as far as the program reads it. -/
structure SDL_WindowEvent where
  windowID : Nat
deriving DecidableEq, Repr

/-- An `SDL_Event`, as far as the program reads it: the type tag and the window
id that the `window` member of the union holds. -/
structure SDL_Event where
  type : Nat
  window : SDL_WindowEvent
deriving DecidableEq, Repr

/-- Values of the constants that `main.cpp` takes from the SDL3 and Dear ImGui
headers.  The headers are not part of the repository, so the values are a
parameter of the embedding. -/
structure Headers where
  SDL_INIT_VIDEO : Nat
  SDL_INIT_GAMEPAD : Nat
  SDL_WINDOW_RESIZABLE : Nat
  SDL_WINDOW_HIGH_PIXEL_DENSITY : Nat
  SDL_WINDOW_MINIMIZED : Nat
  SDL_GPU_SHADERFORMAT_SPIRV : Nat
  SDL_GPU_SHADERFORMAT_DXIL : Nat
  SDL_GPU_SHADERFORMAT_METALLIB : Nat
  SDL_EVENT_QUIT : Nat
  SDL_EVENT_WINDOW_CLOSE_REQUESTED : Nat
  ImGuiConfigFlags_NavEnableKeyboard : Nat
  ImGuiConfigFlags_NavEnableGamepad : Nat
deriving Repr

/-- The values the SDL 3 and Dear ImGui headers give these constants. -/
def sdl3Headers : Headers where
  SDL_INIT_VIDEO := 0x20
  SDL_INIT_GAMEPAD := 0x2000
  SDL_WINDOW_RESIZABLE := 0x20
  SDL_WINDOW_HIGH_PIXEL_DENSITY := 0x2000
  SDL_WINDOW_MINIMIZED := 0x40
  SDL_GPU_SHADERFORMAT_SPIRV := 0x2
  SDL_GPU_SHADERFORMAT_DXIL := 0x8
  SDL_GPU_SHADERFORMAT_METALLIB := 0x20
  SDL_EVENT_QUIT := 0x100
  SDL_EVENT_WINDOW_CLOSE_REQUESTED := 0x210
  ImGuiConfigFlags_NavEnableKeyboard := 0x1
  ImGuiConfigFlags_NavEnableGamepad := 0x2

/-! ## Application state -/

/-- The `App` record of `main.cpp` with its default member initialisers:
null handles, the demo window shown, and the clear colour
`ImVec4(0.45f, 0.55f, 0.60f, 1.00f)` as binary32 bit patterns. -/
structure App where
  window : Handle := 0
  gpu_device : Handle := 0
  show_demo_window : Bool := true
  clear_color : ImVec4 := ⟨⟨0x3EE66666⟩, ⟨0x3F0CCCCD⟩, ⟨0x3F19999A⟩, ⟨0x3F800000⟩⟩
deriving DecidableEq, Repr

/-! ## Collaborator calls -/

/-- One call to a collaborator, with the arguments the program passes. -/
inductive Call
  | SDL_Init (flags : Nat)
  | SDL_GetError
  | printf (text : String)
  | SDL_CreateWindow (title : String) (w h : Nat) (flags : Nat)
  | SDL_CreateGPUDevice (format_flags : Nat) (debug_mode : Bool) (name : Handle)
  | SDL_ClaimWindowForGPUDevice (device window : Handle)
  | SDL_SetGPUSwapchainParameters (device window : Handle)
      (composition : SDL_GPUSwapchainComposition) (present_mode : SDL_GPUPresentMode)
  | IMGUI_CHECKVERSION
  | ImGui_CreateContext
  | ImGui_GetIO_ref
  | io_ConfigFlags_or (flag : Nat)
  | ImGui_StyleColorsDark
  | ImGui_ImplSDL3_InitForSDLGPU (window : Handle)
  | SDL_GetGPUSwapchainTextureFormat (device window : Handle)
  | ImGui_ImplSDLGPU3_Init (info : ImGui_ImplSDLGPU3_InitInfo)
  | SDL_GetWindowFlags (window : Handle)
  | SDL_WaitEvent (event : Handle)
  | ImGui_ImplSDLGPU3_NewFrame
  | ImGui_ImplSDL3_NewFrame
  | ImGui_NewFrame
  | ImGui_ShowDemoWindow
  | ImGui_Render
  | ImGui_GetDrawData
  | SDL_AcquireGPUCommandBuffer (device : Handle)
  | SDL_AcquireGPUSwapchainTexture (command_buffer window : Handle)
  | Imgui_ImplSDLGPU3_PrepareDrawData (draw_data command_buffer : Handle)
  | SDL_BeginGPURenderPass (command_buffer : Handle)
      (color_target_infos : List SDL_GPUColorTargetInfo) (depth_stencil_target_info : Handle)
  | ImGui_ImplSDLGPU3_RenderDrawData (draw_data command_buffer render_pass : Handle)
  | SDL_EndGPURenderPass (render_pass : Handle)
  | SDL_SubmitGPUCommandBuffer (command_buffer : Handle)
  | ImGui_ImplSDL3_ProcessEvent (event : SDL_Event)
  | SDL_GetWindowID (window : Handle)
  | SDL_WaitForGPUIdle (device : Handle)
  | ImGui_ImplSDL3_Shutdown
  | ImGui_ImplSDLGPU3_Shutdown
  | ImGui_DestroyContext
  | SDL_ReleaseWindowFromGPUDevice (device window : Handle)
  | SDL_DestroyGPUDevice (device : Handle)
  | SDL_DestroyWindow (window : Handle)
  | SDL_Quit
deriving DecidableEq, Repr

/-! ## SDL_AppInit -/

/-- What the collaborators answer during one run of `SDL_AppInit`.  At most one
`SDL_GetError` call is made per run, so one text stands for its answer. -/
structure InitEnv where
  SDL_Init : Bool
  SDL_CreateWindow : Handle
  SDL_CreateGPUDevice : Handle
  SDL_ClaimWindowForGPUDevice : Bool
  SDL_SetGPUSwapchainParameters : Bool
  SDL_GetGPUSwapchainTextureFormat : Nat
  SDL_GetError : String
deriving Repr

/-- Outcome of `SDL_AppInit`: the returned result, what was stored through
`appstate` (`none` when the function never assigns `*appstate`), and the calls made. -/
structure InitOut where
  result : SDL_AppResult
  appstate : Option App
  trace : List Call
deriving DecidableEq, Repr

/-- `SDL_AppInit` of `main.cpp` (lines 22-68).  `argc` and `argv` are unused by
the source and left out. -/
def SDL_AppInit (H : Headers) (env : InitEnv) : InitOut :=
  let app : App := {}
  let t := [Call.SDL_Init (H.SDL_INIT_VIDEO ||| H.SDL_INIT_GAMEPAD)]
  if !env.SDL_Init then
    ⟨.SDL_APP_FAILURE, none,
      t ++ [.SDL_GetError, .printf ("Error: SDL_Init(): " ++ env.SDL_GetError ++ "\n")]⟩
  else
  let t := t ++ [Call.SDL_CreateWindow "Dear ImGui SDL3+SDL_GPU example" 1280 720
    (H.SDL_WINDOW_RESIZABLE ||| H.SDL_WINDOW_HIGH_PIXEL_DENSITY)]
  let app := { app with window := env.SDL_CreateWindow }
  if app.window == 0 then
    ⟨.SDL_APP_FAILURE, none,
      t ++ [.SDL_GetError, .printf ("Error: SDL_CreateWindow(): " ++ env.SDL_GetError ++ "\n")]⟩
  else
  let t := t ++ [Call.SDL_CreateGPUDevice
    (H.SDL_GPU_SHADERFORMAT_SPIRV ||| H.SDL_GPU_SHADERFORMAT_DXIL |||
      H.SDL_GPU_SHADERFORMAT_METALLIB) true 0]
  let app := { app with gpu_device := env.SDL_CreateGPUDevice }
  if app.gpu_device == 0 then
    ⟨.SDL_APP_FAILURE, none,
      t ++ [.SDL_GetError, .printf ("Error: SDL_CreateGPUDevice(): " ++ env.SDL_GetError ++ "\n")]⟩
  else
  let t := t ++ [Call.SDL_ClaimWindowForGPUDevice app.gpu_device app.window]
  if !env.SDL_ClaimWindowForGPUDevice then
    ⟨.SDL_APP_FAILURE, none,
      t ++ [.SDL_GetError,
        .printf ("Error: SDL_ClaimWindowForGPUDevice(): " ++ env.SDL_GetError ++ "\n")]⟩
  else
  -- the value SDL_SetGPUSwapchainParameters returns is discarded
  let t := t ++ [Call.SDL_SetGPUSwapchainParameters app.gpu_device app.window .SDR .MAILBOX]
  let t := t ++ [Call.IMGUI_CHECKVERSION, .ImGui_CreateContext, .ImGui_GetIO_ref,
    .io_ConfigFlags_or H.ImGuiConfigFlags_NavEnableKeyboard,
    .io_ConfigFlags_or H.ImGuiConfigFlags_NavEnableGamepad,
    .ImGui_StyleColorsDark,
    .ImGui_ImplSDL3_InitForSDLGPU app.window,
    .SDL_GetGPUSwapchainTextureFormat app.gpu_device app.window]
  let init_info : ImGui_ImplSDLGPU3_InitInfo :=
    { Device := app.gpu_device,
      ColorTargetFormat := env.SDL_GetGPUSwapchainTextureFormat,
      MSAASamples := .SAMPLECOUNT_1 }
  let t := t ++ [Call.ImGui_ImplSDLGPU3_Init init_info]
  ⟨.SDL_APP_CONTINUE, some app, t⟩

/-! ## SDL_AppIterate -/

/-- What the collaborators answer during one run of `SDL_AppIterate`. -/
structure IterEnv where
  /-- Answer of `SDL_GetWindowFlags` for a window. -/
  SDL_GetWindowFlags : Handle → Nat
  /-- Value `ImGui::ShowDemoWindow` leaves in `*p_open`. -/
  ShowDemoWindow_p_open : Bool
  /-- Pointer `ImGui::GetDrawData` returns. -/
  draw_data : Handle
  /-- Member `DisplaySize` of the draw data. -/
  DisplaySize : ImVec2
  /-- Command buffer `SDL_AcquireGPUCommandBuffer` returns. -/
  command_buffer : Handle
  /-- Value of the local `swapchain_texture` after `SDL_AcquireGPUSwapchainTexture`. -/
  swapchain_texture : Handle
  /-- Render pass `SDL_BeginGPURenderPass` returns. -/
  render_pass : Handle

/-- Outcome of `SDL_AppIterate`: the returned result, the application state it
leaves, and the calls made. -/
structure IterOut where
  result : SDL_AppResult
  app : App
  trace : List Call
deriving DecidableEq, Repr

/-- `SDL_AppIterate` of `main.cpp` (lines 70-116). -/
def SDL_AppIterate (H : Headers) (app : App) (env : IterEnv) : IterOut :=
  let t := [Call.SDL_GetWindowFlags app.window]
  if env.SDL_GetWindowFlags app.window &&& H.SDL_WINDOW_MINIMIZED != 0 then
    ⟨.SDL_APP_CONTINUE, app, t ++ [.SDL_WaitEvent 0]⟩
  else
  let t := t ++ [Call.ImGui_ImplSDLGPU3_NewFrame, .ImGui_ImplSDL3_NewFrame, .ImGui_NewFrame]
  let t := if app.show_demo_window then t ++ [Call.ImGui_ShowDemoWindow] else t
  let app := if app.show_demo_window then
    { app with show_demo_window := env.ShowDemoWindow_p_open } else app
  let t := t ++ [Call.ImGui_Render, .ImGui_GetDrawData]
  let draw_data := env.draw_data
  let is_minimized := env.DisplaySize.x.leZero || env.DisplaySize.y.leZero
  let t := t ++ [Call.SDL_AcquireGPUCommandBuffer app.gpu_device]
  let command_buffer := env.command_buffer
  let t := t ++ [Call.SDL_AcquireGPUSwapchainTexture command_buffer app.window]
  let swapchain_texture := env.swapchain_texture
  let t := if swapchain_texture != 0 && !is_minimized then
    let target_info : SDL_GPUColorTargetInfo :=
      { texture := swapchain_texture,
        clear_color :=
          ⟨app.clear_color.x, app.clear_color.y, app.clear_color.z, app.clear_color.w⟩,
        load_op := .CLEAR,
        store_op := .STORE,
        mip_level := 0,
        layer_or_depth_plane := 0,
        cycle := false }
    let render_pass := env.render_pass
    t ++ [Call.Imgui_ImplSDLGPU3_PrepareDrawData draw_data command_buffer,
      .SDL_BeginGPURenderPass command_buffer [target_info] 0,
      .ImGui_ImplSDLGPU3_RenderDrawData draw_data command_buffer render_pass,
      .SDL_EndGPURenderPass render_pass]
  else t
  let t := t ++ [Call.SDL_SubmitGPUCommandBuffer command_buffer]
  ⟨.SDL_APP_CONTINUE, app, t⟩

/-! ## SDL_AppEvent -/

/-- What the collaborators answer during one run of `SDL_AppEvent`. -/
structure EventEnv where
  /-- Answer of `SDL_GetWindowID` for a window. -/
  SDL_GetWindowID : Handle → Nat

/-- Outcome of `SDL_AppEvent`: the returned result and the calls made.  The
function holds the application state through a pointer it never writes through. -/
structure EventOut where
  result : SDL_AppResult
  trace : List Call
deriving DecidableEq, Repr

/-- `SDL_AppEvent` of `main.cpp` (lines 118-126). -/
def SDL_AppEvent (H : Headers) (app : App) (event : SDL_Event) (env : EventEnv) : EventOut :=
  let t := [Call.ImGui_ImplSDL3_ProcessEvent event]
  if event.type == H.SDL_EVENT_QUIT then
    ⟨.SDL_APP_SUCCESS, t⟩
  else if event.type != H.SDL_EVENT_WINDOW_CLOSE_REQUESTED then
    -- `&&` does not evaluate its right operand
    ⟨.SDL_APP_CONTINUE, t⟩
  else
  let t := t ++ [Call.SDL_GetWindowID app.window]
  if event.window.windowID == env.SDL_GetWindowID app.window then
    ⟨.SDL_APP_SUCCESS, t⟩
  else
    ⟨.SDL_APP_CONTINUE, t⟩

/-! ## SDL_AppQuit -/

/-- `SDL_AppQuit` of `main.cpp` (lines 128-139): the calls it makes, in order.
The `result` argument is unused by the source. -/
def SDL_AppQuit (app : App) (_result : SDL_AppResult) : List Call :=
  [.SDL_WaitForGPUIdle app.gpu_device,
   .ImGui_ImplSDL3_Shutdown,
   .ImGui_ImplSDLGPU3_Shutdown,
   .ImGui_DestroyContext,
   .SDL_ReleaseWindowFromGPUDevice app.gpu_device app.window,
   .SDL_DestroyGPUDevice app.gpu_device,
   .SDL_DestroyWindow app.window,
   .SDL_Quit]

/-! ## Sequences of callbacks -/

/-- One invocation made by the runtime between init and quit, with what the
collaborators answer during it. -/
inductive Callback
  | iterate (env : IterEnv)
  | event (event : SDL_Event) (env : EventEnv)

/-- Run one callback on an application state: the result it returns and the
state it leaves. -/
def Callback.run (H : Headers) (app : App) : Callback → SDL_AppResult × App
  | .iterate env => ((SDL_AppIterate H app env).result, (SDL_AppIterate H app env).app)
  | .event e env => ((SDL_AppEvent H app e env).result, app)

/-- The application state after a sequence of callbacks, each run on the state
the previous one left. -/
def runCallbacks (H : Headers) (app : App) (cbs : List Callback) : App :=
  cbs.foldl (fun a cb => (cb.run H a).2) app

/-- The two lifecycle states between init and quit. -/
inductive Phase
  | Running
  | Terminating
deriving DecidableEq, Repr

/-- The lifecycle controller between init and quit: its state and the
application state it owns. -/
structure Controller where
  phase : Phase
  app : App
deriving DecidableEq, Repr

/-- Modelled from the spec: the runtime that dispatches the callbacks is SDL's
and is not in the repository.  Following section 4.1 of the specification, a
controller in `Running` runs the callback and stays in `Running` when it
returns `SDL_APP_CONTINUE`, and otherwise moves to `Terminating`; in
`Terminating` no callback is dispatched any more. -/
def Controller.step (H : Headers) (c : Controller) (cb : Callback) : Controller :=
  match c.phase with
  | .Running =>
    ⟨if (cb.run H c.app).1 = .SDL_APP_CONTINUE then .Running else .Terminating,
      (cb.run H c.app).2⟩
  | .Terminating => c

/-- The controller after a sequence of callbacks. -/
def Controller.steps (H : Headers) (c : Controller) (cbs : List Callback) : Controller :=
  cbs.foldl (Controller.step H) c

/-! ## Vocabulary of the properties -/

/-- The surface is flagged minimized: the test `SDL_AppIterate` makes on the
window flags. -/
def minimized (H : Headers) (app : App) (env : IterEnv) : Prop :=
  env.SDL_GetWindowFlags app.window &&& H.SDL_WINDOW_MINIMIZED ≠ 0

instance (H : Headers) (app : App) (env : IterEnv) : Decidable (minimized H app env) := by
  unfold minimized; infer_instance

/-- A terminating event for a surface with id `surfaceId`: a quit event, or a
close request carrying exactly that window id. -/
def terminating (H : Headers) (surfaceId : Nat) (e : SDL_Event) : Prop :=
  e.type = H.SDL_EVENT_QUIT ∨
    (e.type = H.SDL_EVENT_WINDOW_CLOSE_REQUESTED ∧ e.window.windowID = surfaceId)

instance (H : Headers) (surfaceId : Nat) (e : SDL_Event) :
    Decidable (terminating H surfaceId e) := by
  unfold terminating; infer_instance

/-- Command-buffer submission. -/
def Call.isSubmit : Call → Bool
  | .SDL_SubmitGPUCommandBuffer _ => true
  | _ => false

/-- Render-pass begin. -/
def Call.isBeginRenderPass : Call → Bool
  | .SDL_BeginGPURenderPass _ _ _ => true
  | _ => false

/-- Render-pass end. -/
def Call.isEndRenderPass : Call → Bool
  | .SDL_EndGPURenderPass _ => true
  | _ => false

/-- Draw-data preparation. -/
def Call.isPrepareDrawData : Call → Bool
  | .Imgui_ImplSDLGPU3_PrepareDrawData _ _ => true
  | _ => false

/-- Draw-data rendering. -/
def Call.isRenderDrawData : Call → Bool
  | .ImGui_ImplSDLGPU3_RenderDrawData _ _ _ => true
  | _ => false

/-- Blocking event wait. -/
def Call.isWaitEvent : Call → Bool
  | .SDL_WaitEvent _ => true
  | _ => false

/-- GPU idle-wait barrier. -/
def Call.isIdleWait : Call → Bool
  | .SDL_WaitForGPUIdle _ => true
  | _ => false

/-- Any call that belongs to producing a frame: the new-frame hooks, building
and finalising the UI, acquiring a command buffer or a swapchain texture,
preparing and rendering draw data, a render pass, a submission. -/
def Call.isFrameWork : Call → Bool
  | .ImGui_ImplSDLGPU3_NewFrame => true
  | .ImGui_ImplSDL3_NewFrame => true
  | .ImGui_NewFrame => true
  | .ImGui_ShowDemoWindow => true
  | .ImGui_Render => true
  | .ImGui_GetDrawData => true
  | .SDL_AcquireGPUCommandBuffer _ => true
  | .SDL_AcquireGPUSwapchainTexture _ _ => true
  | .Imgui_ImplSDLGPU3_PrepareDrawData _ _ => true
  | .SDL_BeginGPURenderPass _ _ _ => true
  | .ImGui_ImplSDLGPU3_RenderDrawData _ _ _ => true
  | .SDL_EndGPURenderPass _ => true
  | .SDL_SubmitGPUCommandBuffer _ => true
  | _ => false

/-- The long-lived resources of the controller, one per acquisition of init. -/
inductive Resource
  | subsystem
  | surface
  | device
  | claim
  | context
  | windowingBridge
  | gpuBridge
deriving DecidableEq, Repr

/-- The resource a call acquires, if any. -/
def Call.acquires : Call → Option Resource
  | .SDL_Init _ => some .subsystem
  | .SDL_CreateWindow _ _ _ _ => some .surface
  | .SDL_CreateGPUDevice _ _ _ => some .device
  | .SDL_ClaimWindowForGPUDevice _ _ => some .claim
  | .ImGui_CreateContext => some .context
  | .ImGui_ImplSDL3_InitForSDLGPU _ => some .windowingBridge
  | .ImGui_ImplSDLGPU3_Init _ => some .gpuBridge
  | _ => none

/-- The resource a call releases, if any: subsystem quit, surface destroy,
device destroy, window release, context destroy, and the two bridge shutdowns. -/
def Call.releases : Call → Option Resource
  | .SDL_Quit => some .subsystem
  | .SDL_DestroyWindow _ => some .surface
  | .SDL_DestroyGPUDevice _ => some .device
  | .SDL_ReleaseWindowFromGPUDevice _ _ => some .claim
  | .ImGui_DestroyContext => some .context
  | .ImGui_ImplSDL3_Shutdown => some .windowingBridge
  | .ImGui_ImplSDLGPU3_Shutdown => some .gpuBridge
  | _ => none

/-- A shutdown, release, destroy or quit call. -/
def Call.isTeardown (c : Call) : Bool := c.releases.isSome

/-- The four setup operations of `SDL_AppInit` whose failure is checked. -/
inductive FatalOp
  | SDL_Init
  | SDL_CreateWindow
  | SDL_CreateGPUDevice
  | SDL_ClaimWindowForGPUDevice
deriving DecidableEq, Repr

/-- Position of a fatal operation in the setup sequence. -/
def FatalOp.step : FatalOp → Nat
  | .SDL_Init => 0
  | .SDL_CreateWindow => 1
  | .SDL_CreateGPUDevice => 2
  | .SDL_ClaimWindowForGPUDevice => 3

/-- Name of a fatal operation, as the function is called. -/
def FatalOp.name : FatalOp → String
  | .SDL_Init => "SDL_Init"
  | .SDL_CreateWindow => "SDL_CreateWindow"
  | .SDL_CreateGPUDevice => "SDL_CreateGPUDevice"
  | .SDL_ClaimWindowForGPUDevice => "SDL_ClaimWindowForGPUDevice"

/-- The collaborator reports failure for a fatal operation: `false` from the
two Boolean operations, a null handle from the two creations. -/
def InitEnv.fails (env : InitEnv) : FatalOp → Bool
  | .SDL_Init => !env.SDL_Init
  | .SDL_CreateWindow => env.SDL_CreateWindow == 0
  | .SDL_CreateGPUDevice => env.SDL_CreateGPUDevice == 0
  | .SDL_ClaimWindowForGPUDevice => !env.SDL_ClaimWindowForGPUDevice

/-- The operation `op` fails and every operation before it succeeds. -/
def InitEnv.firstToFail (env : InitEnv) (op : FatalOp) : Prop :=
  env.fails op = true ∧ ∀ p : FatalOp, p.step < op.step → env.fails p = false

/-- Position of a setup call in the sequence `SDL_AppInit` makes on success;
`none` for a call that is not a setup step. -/
def Call.setupStep : Call → Option Nat
  | .SDL_Init _ => some 0
  | .SDL_CreateWindow _ _ _ _ => some 1
  | .SDL_CreateGPUDevice _ _ _ => some 2
  | .SDL_ClaimWindowForGPUDevice _ _ => some 3
  | .SDL_SetGPUSwapchainParameters _ _ _ _ => some 4
  | .IMGUI_CHECKVERSION => some 5
  | .ImGui_CreateContext => some 6
  | .ImGui_GetIO_ref => some 7
  | .io_ConfigFlags_or _ => some 8
  | .ImGui_StyleColorsDark => some 9
  | .ImGui_ImplSDL3_InitForSDLGPU _ => some 10
  | .SDL_GetGPUSwapchainTextureFormat _ _ => some 11
  | .ImGui_ImplSDLGPU3_Init _ => some 12
  | _ => none

/-- The resources a trace acquires, in order. -/
def acquisitions (t : List Call) : List Resource := t.filterMap Call.acquires

/-- The resources a trace releases, in order. -/
def releases (t : List Call) : List Resource := t.filterMap Call.releases

/-! ## Concrete inputs -/

/-- Collaborator answers of a run of `SDL_AppInit` in which everything succeeds. -/
def initAllOk : InitEnv where
  SDL_Init := true
  SDL_CreateWindow := 1
  SDL_CreateGPUDevice := 2
  SDL_ClaimWindowForGPUDevice := true
  SDL_SetGPUSwapchainParameters := true
  SDL_GetGPUSwapchainTextureFormat := 12
  SDL_GetError := ""

/-- As `initAllOk`, but the swapchain parameters are refused. -/
def initNoMailbox : InitEnv where
  SDL_Init := true
  SDL_CreateWindow := 1
  SDL_CreateGPUDevice := 2
  SDL_ClaimWindowForGPUDevice := true
  SDL_SetGPUSwapchainParameters := false
  SDL_GetGPUSwapchainTextureFormat := 12
  SDL_GetError := "present mode unsupported"

/-- As `initAllOk`, but the GPU device cannot be created. -/
def initNoDevice : InitEnv where
  SDL_Init := true
  SDL_CreateWindow := 1
  SDL_CreateGPUDevice := 0
  SDL_ClaimWindowForGPUDevice := true
  SDL_SetGPUSwapchainParameters := true
  SDL_GetGPUSwapchainTextureFormat := 12
  SDL_GetError := "no device"

/-- Collaborator answers of an iteration on a minimized window. -/
def iterMinimized : IterEnv where
  SDL_GetWindowFlags := fun _ => 0x60
  ShowDemoWindow_p_open := false
  draw_data := 3
  DisplaySize := ⟨⟨0x44A00000⟩, ⟨0x44340000⟩⟩
  command_buffer := 4
  swapchain_texture := 5
  render_pass := 6

/-- Collaborator answers of an iteration on a visible window whose swapchain
acquire leaves a null texture; the display size is 1280 by 720. -/
def iterNullTexture : IterEnv where
  SDL_GetWindowFlags := fun _ => 0x20
  ShowDemoWindow_p_open := true
  draw_data := 3
  DisplaySize := ⟨⟨0x44A00000⟩, ⟨0x44340000⟩⟩
  command_buffer := 4
  swapchain_texture := 0
  render_pass := 6

/-- Collaborator answers of an iteration on a visible window with texture 5
acquired and display size 1280 by 720. -/
def iterFrame : IterEnv where
  SDL_GetWindowFlags := fun _ => 0x20
  ShowDemoWindow_p_open := true
  draw_data := 3
  DisplaySize := ⟨⟨0x44A00000⟩, ⟨0x44340000⟩⟩
  command_buffer := 4
  swapchain_texture := 5
  render_pass := 6

/-- The application state a successful init publishes for window 1 and device 2. -/
def appRunning : App where
  window := 1
  gpu_device := 2

/-- A close request for window id 8, while the application's window has id 7. -/
def closeOther : Callback := .event ⟨0x210, ⟨8⟩⟩ ⟨fun _ => 7⟩

/-- A close request for window id 7, the id of the application's window. -/
def closeOwn : Callback := .event ⟨0x210, ⟨7⟩⟩ ⟨fun _ => 7⟩

/-- A callback that carries a terminating event for the window `window`; an
iterate call never does. -/
def Callback.isTerminating (H : Headers) (window : Handle) : Callback → Prop
  | .iterate _ => False
  | .event e env => terminating H (env.SDL_GetWindowID window) e

/-! ## Properties of SDL_AppEvent -/

/-- The result of `SDL_AppEvent`, by cases on the event. -/
theorem SDL_AppEvent_result_eq (H : Headers) (app : App) (e : SDL_Event) (env : EventEnv) :
    (SDL_AppEvent H app e env).result =
      if terminating H (env.SDL_GetWindowID app.window) e then .SDL_APP_SUCCESS
      else .SDL_APP_CONTINUE := by
  unfold SDL_AppEvent terminating
  by_cases hq : e.type = H.SDL_EVENT_QUIT
  · simp [hq]
  · by_cases hc : e.type = H.SDL_EVENT_WINDOW_CLOSE_REQUESTED
    · have hq2 : ¬ H.SDL_EVENT_WINDOW_CLOSE_REQUESTED = H.SDL_EVENT_QUIT := hc ▸ hq
      by_cases hw : e.window.windowID = env.SDL_GetWindowID app.window
      · simp [hc, hq2, hw]
      · simp [hc, hq2, hw]
    · simp [hq, hc]

/-- C1: for every application state and every event, `SDL_AppEvent` returns
`SDL_APP_SUCCESS` exactly when the event is a quit event (whatever window id it
carries) or a close request whose window id equals the id of the application's
window, and returns `SDL_APP_CONTINUE` exactly for every other event. -/
theorem SDL_AppEvent_result (H : Headers) (app : App) (e : SDL_Event) (env : EventEnv) :
    ((SDL_AppEvent H app e env).result = .SDL_APP_SUCCESS ↔
        (e.type = H.SDL_EVENT_QUIT ∨
          (e.type = H.SDL_EVENT_WINDOW_CLOSE_REQUESTED ∧
            e.window.windowID = env.SDL_GetWindowID app.window))) ∧
    ((SDL_AppEvent H app e env).result = .SDL_APP_CONTINUE ↔
        ¬ (e.type = H.SDL_EVENT_QUIT ∨
          (e.type = H.SDL_EVENT_WINDOW_CLOSE_REQUESTED ∧
            e.window.windowID = env.SDL_GetWindowID app.window))) := by
  rw [SDL_AppEvent_result_eq]
  by_cases h : terminating H (env.SDL_GetWindowID app.window) e
  · have h2 := h
    unfold terminating at h2
    simp [h, h2]
  · have h2 := h
    unfold terminating at h2
    simp [h, h2]

/-! ## Properties of SDL_AppIterate -/

/-- The minimized test of `SDL_AppIterate`, as the Boolean the code branches on. -/
theorem minimized_iff (H : Headers) (app : App) (env : IterEnv) :
    (env.SDL_GetWindowFlags app.window &&& H.SDL_WINDOW_MINIMIZED != 0) = true ↔
      minimized H app env := by
  simp [minimized]

/-- A float that compares `> 0.0f` does not compare `<= 0.0f`. -/
theorem F32.leZero_of_gtZero (f : F32) (h : f.gtZero = true) : f.leZero = false := by
  unfold F32.gtZero at h
  unfold F32.leZero
  cases hn : f.isNaN <;> cases hz : f.isZero <;> simp_all

/-- C4: when the window is flagged minimized at the start of `SDL_AppIterate`,
the call only queries the window flags and waits once for an event: it makes no
new-frame, UI-build, command-buffer, swapchain, render-pass or submit call,
returns `SDL_APP_CONTINUE`, and leaves the whole application state (so also
`show_demo_window` and `clear_color`) as it was. -/
theorem SDL_AppIterate_minimized (H : Headers) (app : App) (env : IterEnv)
    (hmin : minimized H app env) :
    (SDL_AppIterate H app env).trace = [.SDL_GetWindowFlags app.window, .SDL_WaitEvent 0] ∧
    (SDL_AppIterate H app env).trace.countP Call.isWaitEvent = 1 ∧
    (SDL_AppIterate H app env).trace.countP Call.isFrameWork = 0 ∧
    (SDL_AppIterate H app env).result = .SDL_APP_CONTINUE ∧
    (SDL_AppIterate H app env).app = app := by
  have h := (minimized_iff H app env).mpr hmin
  simp [SDL_AppIterate, h, Call.isWaitEvent, Call.isFrameWork]

/-- C2: on a window that is not minimized, when the swapchain acquire leaves a
null texture or the reported display size has a width or height `<= 0`, the
iteration acquires a command buffer, submits exactly that command buffer (the
only submission, and the last call), and makes no draw-data preparation, no
render-pass begin, no draw-data render and no render-pass end. -/
theorem SDL_AppIterate_skip_frame (H : Headers) (app : App) (env : IterEnv)
    (hmin : ¬ minimized H app env)
    (hskip : env.swapchain_texture = 0 ∨ env.DisplaySize.x.leZero = true ∨
      env.DisplaySize.y.leZero = true) :
    Call.SDL_AcquireGPUCommandBuffer app.gpu_device ∈ (SDL_AppIterate H app env).trace ∧
    (SDL_AppIterate H app env).trace.countP Call.isSubmit = 1 ∧
    (SDL_AppIterate H app env).trace.getLast? =
      some (.SDL_SubmitGPUCommandBuffer env.command_buffer) ∧
    (SDL_AppIterate H app env).trace.countP Call.isBeginRenderPass = 0 ∧
    (SDL_AppIterate H app env).trace.countP Call.isPrepareDrawData = 0 ∧
    (SDL_AppIterate H app env).trace.countP Call.isRenderDrawData = 0 ∧
    (SDL_AppIterate H app env).trace.countP Call.isEndRenderPass = 0 := by
  have h : (env.SDL_GetWindowFlags app.window &&& H.SDL_WINDOW_MINIMIZED != 0) = false := by
    simpa [minimized] using hmin
  have hc : (env.swapchain_texture != 0 &&
      !(env.DisplaySize.x.leZero || env.DisplaySize.y.leZero)) = false := by
    rcases hskip with h | h | h <;> simp [h]
  cases hs : app.show_demo_window <;>
    simp only [SDL_AppIterate, h, hc, hs] <;>
    simp [Call.isSubmit, Call.isBeginRenderPass,
      Call.isPrepareDrawData, Call.isRenderDrawData, Call.isEndRenderPass]

/-- C3: on a window that is not minimized, when the acquired swapchain texture
is non-null and both reported display dimensions are `> 0`, the iteration ends
with: draw-data preparation, one render-pass begin on the acquired command
buffer with the single colour target (the acquired texture, the stored
`clear_color` channel for channel, load op clear, store op store) and a null
depth target, the draw-data render inside that pass, the pass end, and the
submission of the same command buffer.  Nothing before that tail prepares,
begins, renders, ends or submits, so there is exactly one render pass and
exactly one submission. -/
theorem SDL_AppIterate_renders_frame (H : Headers) (app : App) (env : IterEnv)
    (hmin : ¬ minimized H app env) (htex : env.swapchain_texture ≠ 0)
    (hx : env.DisplaySize.x.gtZero = true) (hy : env.DisplaySize.y.gtZero = true) :
    (∃ pre : List Call,
      (SDL_AppIterate H app env).trace = pre ++
        [.Imgui_ImplSDLGPU3_PrepareDrawData env.draw_data env.command_buffer,
         .SDL_BeginGPURenderPass env.command_buffer
           [{ texture := env.swapchain_texture,
              clear_color := ⟨app.clear_color.x, app.clear_color.y, app.clear_color.z,
                app.clear_color.w⟩,
              load_op := .CLEAR,
              store_op := .STORE,
              mip_level := 0,
              layer_or_depth_plane := 0,
              cycle := false }] 0,
         .ImGui_ImplSDLGPU3_RenderDrawData env.draw_data env.command_buffer env.render_pass,
         .SDL_EndGPURenderPass env.render_pass,
         .SDL_SubmitGPUCommandBuffer env.command_buffer] ∧
      Call.SDL_AcquireGPUCommandBuffer app.gpu_device ∈ pre ∧
      pre.countP (fun c => c.isPrepareDrawData || c.isBeginRenderPass || c.isRenderDrawData ||
        c.isEndRenderPass || c.isSubmit) = 0) ∧
    (SDL_AppIterate H app env).trace.countP Call.isSubmit = 1 ∧
    (SDL_AppIterate H app env).trace.countP Call.isBeginRenderPass = 1 ∧
    (SDL_AppIterate H app env).trace.countP Call.isEndRenderPass = 1 ∧
    (SDL_AppIterate H app env).trace.countP Call.isPrepareDrawData = 1 ∧
    (SDL_AppIterate H app env).trace.countP Call.isRenderDrawData = 1 := by
  have h : (env.SDL_GetWindowFlags app.window &&& H.SDL_WINDOW_MINIMIZED != 0) = false := by
    simpa [minimized] using hmin
  have hc : (env.swapchain_texture != 0 &&
      !(env.DisplaySize.x.leZero || env.DisplaySize.y.leZero)) = true := by
    simp [htex, F32.leZero_of_gtZero _ hx, F32.leZero_of_gtZero _ hy]
  cases hs : app.show_demo_window
  · refine ⟨⟨[.SDL_GetWindowFlags app.window, .ImGui_ImplSDLGPU3_NewFrame,
      .ImGui_ImplSDL3_NewFrame, .ImGui_NewFrame, .ImGui_Render, .ImGui_GetDrawData,
      .SDL_AcquireGPUCommandBuffer app.gpu_device,
      .SDL_AcquireGPUSwapchainTexture env.command_buffer app.window], ?_, ?_, ?_⟩, ?_⟩
    · simp only [SDL_AppIterate, h, hc, hs]
      simp
    · simp
    · simp [Call.isSubmit, Call.isBeginRenderPass,
        Call.isPrepareDrawData, Call.isRenderDrawData, Call.isEndRenderPass]
    · simp only [SDL_AppIterate, h, hc, hs]
      simp [Call.isSubmit, Call.isBeginRenderPass,
        Call.isPrepareDrawData, Call.isRenderDrawData, Call.isEndRenderPass]
  · refine ⟨⟨[.SDL_GetWindowFlags app.window, .ImGui_ImplSDLGPU3_NewFrame,
      .ImGui_ImplSDL3_NewFrame, .ImGui_NewFrame, .ImGui_ShowDemoWindow, .ImGui_Render,
      .ImGui_GetDrawData, .SDL_AcquireGPUCommandBuffer app.gpu_device,
      .SDL_AcquireGPUSwapchainTexture env.command_buffer app.window], ?_, ?_, ?_⟩, ?_⟩
    · simp only [SDL_AppIterate, h, hc, hs]
      simp
    · simp
    · simp [Call.isSubmit, Call.isBeginRenderPass,
        Call.isPrepareDrawData, Call.isRenderDrawData, Call.isEndRenderPass]
    · simp only [SDL_AppIterate, h, hc, hs]
      simp [Call.isSubmit, Call.isBeginRenderPass,
        Call.isPrepareDrawData, Call.isRenderDrawData, Call.isEndRenderPass]

/-- Witness for C4: a minimized window (flags `0x60`). -/
theorem SDL_AppIterate_minimized_witness :
    minimized sdl3Headers appRunning iterMinimized ∧
    (SDL_AppIterate sdl3Headers appRunning iterMinimized).trace =
      [.SDL_GetWindowFlags 1, .SDL_WaitEvent 0] ∧
    (SDL_AppIterate sdl3Headers appRunning iterMinimized).app = appRunning :=
  ⟨by decide,
    (SDL_AppIterate_minimized sdl3Headers appRunning iterMinimized (by decide)).1,
    (SDL_AppIterate_minimized sdl3Headers appRunning iterMinimized (by decide)).2.2.2.2⟩

/-- Witness for C2: a visible window, a null texture. -/
theorem SDL_AppIterate_skip_frame_witness :
    ¬ minimized sdl3Headers appRunning iterNullTexture ∧
    iterNullTexture.swapchain_texture = 0 ∧
    (SDL_AppIterate sdl3Headers appRunning iterNullTexture).trace.countP Call.isSubmit = 1 ∧
    (SDL_AppIterate sdl3Headers appRunning iterNullTexture).trace.getLast? =
      some (.SDL_SubmitGPUCommandBuffer 4) ∧
    (SDL_AppIterate sdl3Headers appRunning iterNullTexture).trace.countP
      Call.isBeginRenderPass = 0 :=
  ⟨by decide, rfl,
    (SDL_AppIterate_skip_frame sdl3Headers appRunning iterNullTexture (by decide)
      (Or.inl rfl)).2.1,
    (SDL_AppIterate_skip_frame sdl3Headers appRunning iterNullTexture (by decide)
      (Or.inl rfl)).2.2.1,
    (SDL_AppIterate_skip_frame sdl3Headers appRunning iterNullTexture (by decide)
      (Or.inl rfl)).2.2.2.1⟩

/-- Witness for C3: a visible window, texture 5, a display size of 1280 by 720. -/
theorem SDL_AppIterate_renders_frame_witness :
    ¬ minimized sdl3Headers appRunning iterFrame ∧
    iterFrame.swapchain_texture ≠ 0 ∧
    iterFrame.DisplaySize.x.gtZero = true ∧ iterFrame.DisplaySize.y.gtZero = true ∧
    (SDL_AppIterate sdl3Headers appRunning iterFrame).trace.countP Call.isSubmit = 1 ∧
    (SDL_AppIterate sdl3Headers appRunning iterFrame).trace.countP
      Call.isBeginRenderPass = 1 :=
  ⟨by decide, by decide, by decide, by decide,
    (SDL_AppIterate_renders_frame sdl3Headers appRunning iterFrame (by decide) (by decide)
      (by decide) (by decide)).2.1,
    (SDL_AppIterate_renders_frame sdl3Headers appRunning iterFrame (by decide) (by decide)
      (by decide) (by decide)).2.2.1⟩

/-! ## Properties of SDL_AppInit -/

/-- C7: when one of the four fatal setup operations (`SDL_Init`,
`SDL_CreateWindow`, `SDL_CreateGPUDevice`, `SDL_ClaimWindowForGPUDevice`) is the
first to fail, `SDL_AppInit` returns `SDL_APP_FAILURE`, stores no application
state through `appstate`, ends with a `SDL_GetError` call followed by the
diagnostic `Error: <operation>(): <last error text>`, makes no setup call after
the failing operation, and makes no shutdown, release, destroy or quit call. -/
theorem SDL_AppInit_fatal (H : Headers) (env : InitEnv) (op : FatalOp)
    (hfail : env.firstToFail op) :
    (SDL_AppInit H env).result = .SDL_APP_FAILURE ∧
    (SDL_AppInit H env).appstate = none ∧
    (∃ pre : List Call, (SDL_AppInit H env).trace = pre ++
      [.SDL_GetError, .printf ("Error: " ++ op.name ++ "(): " ++ env.SDL_GetError ++ "\n")]) ∧
    (∀ c ∈ (SDL_AppInit H env).trace, ∀ k, c.setupStep = some k → k ≤ op.step) ∧
    (∀ c ∈ (SDL_AppInit H env).trace, c.isTeardown = false) := by
  obtain ⟨hf, hp⟩ := hfail
  cases op
  · have h1 : env.SDL_Init = false := by simpa [InitEnv.fails] using hf
    simp [SDL_AppInit, h1, FatalOp.name, FatalOp.step, Call.setupStep, Call.isTeardown,
      Call.releases]
    exact ⟨[.SDL_Init (H.SDL_INIT_VIDEO ||| H.SDL_INIT_GAMEPAD)], rfl⟩
  · have h1 : env.SDL_Init = true := by
      simpa [InitEnv.fails, FatalOp.step] using hp .SDL_Init (by decide)
    have h2 : env.SDL_CreateWindow = 0 := by simpa [InitEnv.fails] using hf
    simp [SDL_AppInit, h1, h2, FatalOp.name, FatalOp.step, Call.setupStep, Call.isTeardown,
      Call.releases]
    exact ⟨[.SDL_Init (H.SDL_INIT_VIDEO ||| H.SDL_INIT_GAMEPAD),
      .SDL_CreateWindow "Dear ImGui SDL3+SDL_GPU example" 1280 720
        (H.SDL_WINDOW_RESIZABLE ||| H.SDL_WINDOW_HIGH_PIXEL_DENSITY)], rfl⟩
  · have h1 : env.SDL_Init = true := by
      simpa [InitEnv.fails, FatalOp.step] using hp .SDL_Init (by decide)
    have h2 : ¬ env.SDL_CreateWindow = 0 := by
      simpa [InitEnv.fails, FatalOp.step] using hp .SDL_CreateWindow (by decide)
    have h3 : env.SDL_CreateGPUDevice = 0 := by simpa [InitEnv.fails] using hf
    simp [SDL_AppInit, h1, h2, h3, FatalOp.name, FatalOp.step, Call.setupStep, Call.isTeardown,
      Call.releases]
    exact ⟨[.SDL_Init (H.SDL_INIT_VIDEO ||| H.SDL_INIT_GAMEPAD),
      .SDL_CreateWindow "Dear ImGui SDL3+SDL_GPU example" 1280 720
        (H.SDL_WINDOW_RESIZABLE ||| H.SDL_WINDOW_HIGH_PIXEL_DENSITY),
      .SDL_CreateGPUDevice (H.SDL_GPU_SHADERFORMAT_SPIRV ||| H.SDL_GPU_SHADERFORMAT_DXIL |||
        H.SDL_GPU_SHADERFORMAT_METALLIB) true 0], rfl⟩
  · have h1 : env.SDL_Init = true := by
      simpa [InitEnv.fails, FatalOp.step] using hp .SDL_Init (by decide)
    have h2 : ¬ env.SDL_CreateWindow = 0 := by
      simpa [InitEnv.fails, FatalOp.step] using hp .SDL_CreateWindow (by decide)
    have h3 : ¬ env.SDL_CreateGPUDevice = 0 := by
      simpa [InitEnv.fails, FatalOp.step] using hp .SDL_CreateGPUDevice (by decide)
    have h4 : env.SDL_ClaimWindowForGPUDevice = false := by simpa [InitEnv.fails] using hf
    simp [SDL_AppInit, h1, h2, h3, h4, FatalOp.name, FatalOp.step, Call.setupStep,
      Call.isTeardown, Call.releases]
    exact ⟨[.SDL_Init (H.SDL_INIT_VIDEO ||| H.SDL_INIT_GAMEPAD),
      .SDL_CreateWindow "Dear ImGui SDL3+SDL_GPU example" 1280 720
        (H.SDL_WINDOW_RESIZABLE ||| H.SDL_WINDOW_HIGH_PIXEL_DENSITY),
      .SDL_CreateGPUDevice (H.SDL_GPU_SHADERFORMAT_SPIRV ||| H.SDL_GPU_SHADERFORMAT_DXIL |||
        H.SDL_GPU_SHADERFORMAT_METALLIB) true 0,
      .SDL_ClaimWindowForGPUDevice env.SDL_CreateGPUDevice env.SDL_CreateWindow], rfl⟩

/-- Witness for C7: the device creation is the first to fail. -/
theorem SDL_AppInit_fatal_witness :
    initNoDevice.firstToFail .SDL_CreateGPUDevice ∧
    (SDL_AppInit sdl3Headers initNoDevice).result = .SDL_APP_FAILURE ∧
    (SDL_AppInit sdl3Headers initNoDevice).appstate = none :=
  have h : initNoDevice.firstToFail .SDL_CreateGPUDevice :=
    ⟨by decide, fun p => by cases p <;> decide⟩
  ⟨h, (SDL_AppInit_fatal sdl3Headers initNoDevice .SDL_CreateGPUDevice h).1,
    (SDL_AppInit_fatal sdl3Headers initNoDevice .SDL_CreateGPUDevice h).2.1⟩

/-- C8, as stated, fails: with `SDL_SetGPUSwapchainParameters` reporting failure
(and the four checked operations succeeding), `SDL_AppInit` does not return
`SDL_APP_FAILURE`; it creates the UI context and both bridges, publishes the
application state and returns `SDL_APP_CONTINUE`. -/
theorem SDL_AppInit_swapchain_failure_not_fatal :
    initNoMailbox.SDL_SetGPUSwapchainParameters = false ∧
    (SDL_AppInit sdl3Headers initNoMailbox).result ≠ .SDL_APP_FAILURE ∧
    (SDL_AppInit sdl3Headers initNoMailbox).result = .SDL_APP_CONTINUE ∧
    (SDL_AppInit sdl3Headers initNoMailbox).appstate = some appRunning ∧
    Call.ImGui_CreateContext ∈ (SDL_AppInit sdl3Headers initNoMailbox).trace ∧
    Call.ImGui_ImplSDL3_InitForSDLGPU 1 ∈ (SDL_AppInit sdl3Headers initNoMailbox).trace := by
  decide

/-- C8, amended: once the four checked operations succeed, `SDL_AppInit`
requests the swapchain parameters (composition SDR, presentation mode mailbox)
and does not consult the answer: whether `SDL_SetGPUSwapchainParameters`
reports success or failure the outcome is the same, namely the UI context and
both bridges are created, the application state with the created window and
device is published and `SDL_APP_CONTINUE` is returned. -/
theorem SDL_AppInit_swapchain_result_unused (H : Headers) (env : InitEnv) (b : Bool)
    (h1 : env.SDL_Init = true) (h2 : env.SDL_CreateWindow ≠ 0)
    (h3 : env.SDL_CreateGPUDevice ≠ 0) (h4 : env.SDL_ClaimWindowForGPUDevice = true) :
    SDL_AppInit H { env with SDL_SetGPUSwapchainParameters := b } = SDL_AppInit H env ∧
    (SDL_AppInit H env).result = .SDL_APP_CONTINUE ∧
    (SDL_AppInit H env).appstate =
      some { window := env.SDL_CreateWindow, gpu_device := env.SDL_CreateGPUDevice } ∧
    Call.SDL_SetGPUSwapchainParameters env.SDL_CreateGPUDevice env.SDL_CreateWindow
      .SDR .MAILBOX ∈ (SDL_AppInit H env).trace ∧
    Call.ImGui_CreateContext ∈ (SDL_AppInit H env).trace ∧
    Call.ImGui_ImplSDL3_InitForSDLGPU env.SDL_CreateWindow ∈ (SDL_AppInit H env).trace ∧
    Call.ImGui_ImplSDLGPU3_Init
      { Device := env.SDL_CreateGPUDevice,
        ColorTargetFormat := env.SDL_GetGPUSwapchainTextureFormat,
        MSAASamples := .SAMPLECOUNT_1 } ∈ (SDL_AppInit H env).trace := by
  simp [SDL_AppInit, h1, h2, h3, h4]

/-- Witness for C8 as amended: the swapchain parameters are refused in
`initNoMailbox`. -/
theorem SDL_AppInit_swapchain_result_unused_witness :
    initNoMailbox.SDL_SetGPUSwapchainParameters = false ∧
    (SDL_AppInit sdl3Headers initNoMailbox).result = .SDL_APP_CONTINUE ∧
    (SDL_AppInit sdl3Headers initNoMailbox).appstate =
      some { window := 1, gpu_device := 2 } :=
  ⟨rfl,
    (SDL_AppInit_swapchain_result_unused sdl3Headers initNoMailbox true rfl (by decide)
      (by decide) rfl).2.1,
    (SDL_AppInit_swapchain_result_unused sdl3Headers initNoMailbox true rfl (by decide)
      (by decide) rfl).2.2.1⟩

/-! ## Properties of SDL_AppQuit -/

/-- C5: in the calls `SDL_AppQuit` makes, `SDL_WaitForGPUIdle` occurs exactly
once, and wherever a shutdown, release, destroy or quit call stands in the
trace, the idle wait on the application's device stands before it. -/
theorem SDL_AppQuit_idle_wait_first (app : App) (r : SDL_AppResult) :
    (SDL_AppQuit app r).countP Call.isIdleWait = 1 ∧
    ∀ (pre : List Call) (c : Call) (post : List Call),
      SDL_AppQuit app r = pre ++ c :: post → c.isTeardown = true →
        Call.SDL_WaitForGPUIdle app.gpu_device ∈ pre := by
  refine ⟨by simp [SDL_AppQuit, Call.isIdleWait], ?_⟩
  intro pre c post h hc
  cases pre with
  | nil =>
    simp only [SDL_AppQuit, List.nil_append, List.cons.injEq] at h
    rw [← h.1] at hc
    simp [Call.isTeardown, Call.releases] at hc
  | cons a pre =>
    simp only [SDL_AppQuit, List.cons_append, List.cons.injEq] at h
    simp [← h.1]

/-- C6, as stated, fails: after the successful init `initAllOk`, the releases of
`SDL_AppQuit` are not the reverse of the acquisitions of `SDL_AppInit` (the two
bridge shutdowns come in the order of their initialisation). -/
theorem SDL_AppQuit_not_reverse_of_init :
    (SDL_AppInit sdl3Headers initAllOk).appstate = some appRunning ∧
    releases (SDL_AppQuit appRunning .SDL_APP_SUCCESS) ≠
      (acquisitions (SDL_AppInit sdl3Headers initAllOk).trace).reverse := by
  decide

/-- C6, amended: after a successful init, the acquisitions of `SDL_AppInit` are
subsystem, surface, device, claim, context, windowing bridge, GPU bridge, and
`SDL_AppQuit`, after the idle wait, shuts down the windowing bridge, then the
GPU bridge (the order of their initialisation), and then releases the five
earlier acquisitions in reverse order: context, claim, device, surface,
subsystem.  The device and window it releases are the ones init created. -/
theorem SDL_AppQuit_release_order (H : Headers) (env : InitEnv) (app : App)
    (r : SDL_AppResult) (hinit : (SDL_AppInit H env).appstate = some app) :
    acquisitions (SDL_AppInit H env).trace =
      [.subsystem, .surface, .device, .claim, .context, .windowingBridge, .gpuBridge] ∧
    releases (SDL_AppQuit app r) =
      [.windowingBridge, .gpuBridge] ++
        ((acquisitions (SDL_AppInit H env).trace).take 5).reverse ∧
    SDL_AppQuit app r =
      [.SDL_WaitForGPUIdle env.SDL_CreateGPUDevice,
       .ImGui_ImplSDL3_Shutdown,
       .ImGui_ImplSDLGPU3_Shutdown,
       .ImGui_DestroyContext,
       .SDL_ReleaseWindowFromGPUDevice env.SDL_CreateGPUDevice env.SDL_CreateWindow,
       .SDL_DestroyGPUDevice env.SDL_CreateGPUDevice,
       .SDL_DestroyWindow env.SDL_CreateWindow,
       .SDL_Quit] := by
  unfold SDL_AppInit at hinit ⊢
  cases h1 : env.SDL_Init <;> cases h4 : env.SDL_ClaimWindowForGPUDevice <;>
    by_cases h2 : env.SDL_CreateWindow = 0 <;> by_cases h3 : env.SDL_CreateGPUDevice = 0 <;>
    simp [h1, h2, h3, h4] at hinit
  subst hinit
  simp [h1, h2, h3, h4, SDL_AppQuit, acquisitions, releases, Call.acquires, Call.releases]

/-- Witness for C6 as amended: the successful init `initAllOk`. -/
theorem SDL_AppQuit_release_order_witness :
    (SDL_AppInit sdl3Headers initAllOk).appstate = some appRunning ∧
    releases (SDL_AppQuit appRunning .SDL_APP_SUCCESS) =
      [.windowingBridge, .gpuBridge] ++
        ((acquisitions (SDL_AppInit sdl3Headers initAllOk).trace).take 5).reverse :=
  ⟨by decide,
    (SDL_AppQuit_release_order sdl3Headers initAllOk appRunning .SDL_APP_SUCCESS
      (by decide)).2.1⟩

/-! ## Properties of callback sequences -/

/-- `SDL_AppIterate` returns `SDL_APP_CONTINUE` on every path. -/
theorem SDL_AppIterate_result (H : Headers) (app : App) (env : IterEnv) :
    (SDL_AppIterate H app env).result = .SDL_APP_CONTINUE := by
  unfold SDL_AppIterate
  split <;> rfl

/-- `SDL_AppIterate` leaves the window and device handles of the state alone. -/
theorem SDL_AppIterate_handles (H : Headers) (app : App) (env : IterEnv) :
    (SDL_AppIterate H app env).app.window = app.window ∧
    (SDL_AppIterate H app env).app.gpu_device = app.gpu_device := by
  unfold SDL_AppIterate
  split
  · exact ⟨rfl, rfl⟩
  · cases hs : app.show_demo_window <;> simp

/-- No callback changes the window or the device handle. -/
theorem Callback.run_handles (H : Headers) (app : App) (cb : Callback) :
    (cb.run H app).2.window = app.window ∧ (cb.run H app).2.gpu_device = app.gpu_device := by
  cases cb with
  | iterate env => exact SDL_AppIterate_handles H app env
  | event e env => exact ⟨rfl, rfl⟩

/-- A callback returns `SDL_APP_CONTINUE` exactly when it carries no terminating event. -/
theorem Callback.run_continue_iff (H : Headers) (app : App) (cb : Callback) :
    (cb.run H app).1 = .SDL_APP_CONTINUE ↔ ¬ cb.isTerminating H app.window := by
  cases cb with
  | iterate env => simp [Callback.run, Callback.isTerminating, SDL_AppIterate_result]
  | event e env =>
    simp only [Callback.run, Callback.isTerminating, SDL_AppEvent_result_eq]
    by_cases h : terminating H (env.SDL_GetWindowID app.window) e <;> simp [h]

/-- No sequence of callbacks changes the window or the device handle. -/
theorem runCallbacks_handles (H : Headers) (cbs : List Callback) (app : App) :
    (runCallbacks H app cbs).window = app.window ∧
    (runCallbacks H app cbs).gpu_device = app.gpu_device := by
  induction cbs generalizing app with
  | nil => exact ⟨rfl, rfl⟩
  | cons cb cbs ih =>
    have h := Callback.run_handles H app cb
    have h2 := ih (cb.run H app).2
    simp only [runCallbacks, List.foldl_cons] at h2 ⊢
    exact ⟨h2.1.trans h.1, h2.2.trans h.2⟩

/-- Once in `Terminating`, the controller stays there. -/
theorem Controller.steps_terminating (H : Headers) (cbs : List Callback) (app : App) :
    (Controller.steps H ⟨.Terminating, app⟩ cbs).phase = .Terminating := by
  induction cbs with
  | nil => rfl
  | cons cb cbs ih => simpa [Controller.steps, Controller.step] using ih

/-- The controller is in `Running` after a sequence of callbacks exactly when
none of them carried a terminating event for the window `w` of the state. -/
theorem Controller.steps_running_iff (H : Headers) (w : Handle) (cbs : List Callback)
    (app : App) (hw : app.window = w) :
    (Controller.steps H ⟨.Running, app⟩ cbs).phase = .Running ↔
      ∀ cb ∈ cbs, ¬ cb.isTerminating H w := by
  induction cbs generalizing app with
  | nil => simp [Controller.steps]
  | cons cb cbs ih =>
    have hr := Callback.run_continue_iff H app cb
    rw [hw] at hr
    by_cases hc : (cb.run H app).1 = .SDL_APP_CONTINUE
    · have hstep : Controller.step H ⟨.Running, app⟩ cb = ⟨.Running, (cb.run H app).2⟩ := by
        simp [Controller.step, hc]
      have := ih (cb.run H app).2 ((Callback.run_handles H app cb).1.trans hw)
      simp only [Controller.steps, List.foldl_cons, hstep] at this ⊢
      rw [this]
      simp [hr.mp hc]
    · have hstep : Controller.step H ⟨.Running, app⟩ cb =
          ⟨.Terminating, (cb.run H app).2⟩ := by
        simp [Controller.step, hc]
      have ht := Controller.steps_terminating H cbs (cb.run H app).2
      simp only [Controller.steps, List.foldl_cons, hstep] at ht ⊢
      rw [ht]
      have : cb.isTerminating H w := by
        by_contra hn
        exact hc (hr.mpr hn)
      simp [this]

/-- C9: in every sequence of iterate and event calls run from an application
state, each call returns `SDL_APP_CONTINUE` exactly when it carries no
terminating event (a quit event, or a close request with the id of the
application's window), so each iterate call returns `SDL_APP_CONTINUE`; and the
controller is in `Running` after a prefix of the sequence exactly when the
prefix holds no terminating event, so it leaves `Running` at the first one. -/
theorem lifecycle_running_until_terminating (H : Headers) (app : App) (cbs : List Callback) :
    (∀ (pre : List Callback) (cb : Callback) (post : List Callback),
      cbs = pre ++ cb :: post →
        ((cb.run H (runCallbacks H app pre)).1 = .SDL_APP_CONTINUE ↔
          ¬ cb.isTerminating H app.window)) ∧
    (∀ (pre : List Callback) (env : IterEnv) (post : List Callback),
      cbs = pre ++ Callback.iterate env :: post →
        (SDL_AppIterate H (runCallbacks H app pre) env).result = .SDL_APP_CONTINUE) ∧
    (∀ pre : List Callback, pre <+: cbs →
      ((Controller.steps H ⟨.Running, app⟩ pre).phase = .Running ↔
        ∀ cb ∈ pre, ¬ cb.isTerminating H app.window)) := by
  refine ⟨?_, ?_, ?_⟩
  · intro pre cb post _
    have h := Callback.run_continue_iff H (runCallbacks H app pre) cb
    rwa [(runCallbacks_handles H pre app).1] at h
  · intro pre env post _
    exact SDL_AppIterate_result H _ env
  · intro pre _
    exact Controller.steps_running_iff H app.window pre app rfl

/-- Witness for C9: after a rendered frame and a close request for another
window the controller is in `Running`; the close request for the application's
own window that follows takes it out of `Running`. -/
theorem lifecycle_running_until_terminating_witness :
    (Controller.steps sdl3Headers ⟨.Running, appRunning⟩
      [.iterate iterFrame, closeOther]).phase = .Running ∧
    (Controller.steps sdl3Headers ⟨.Running, appRunning⟩
      [.iterate iterFrame, closeOther, closeOwn]).phase ≠ .Running :=
  ⟨((lifecycle_running_until_terminating sdl3Headers appRunning
      [.iterate iterFrame, closeOther, closeOwn]).2.2
      [.iterate iterFrame, closeOther] ⟨[closeOwn], rfl⟩).mpr
      (by simp [Callback.isTerminating, closeOther, terminating, sdl3Headers]),
    fun h => ((lifecycle_running_until_terminating sdl3Headers appRunning
      [.iterate iterFrame, closeOther, closeOwn]).2.2
      [.iterate iterFrame, closeOther, closeOwn] List.prefix_rfl).mp h closeOwn
      (by simp) (by simp [Callback.isTerminating, closeOwn, terminating, sdl3Headers])⟩

/-- C10: when `SDL_AppInit` returns `SDL_APP_CONTINUE` it has published an
application state whose window and device handles are non-null, and after any
sequence of iterate and event calls run from that state both handles are the
same, hence still non-null. -/
theorem handles_non_null_and_stable (H : Headers) (env : InitEnv)
    (hinit : (SDL_AppInit H env).result = .SDL_APP_CONTINUE) :
    ∃ app : App, (SDL_AppInit H env).appstate = some app ∧
      app.window ≠ 0 ∧ app.gpu_device ≠ 0 ∧
      ∀ cbs : List Callback,
        (runCallbacks H app cbs).window = app.window ∧
        (runCallbacks H app cbs).gpu_device = app.gpu_device ∧
        (runCallbacks H app cbs).window ≠ 0 ∧
        (runCallbacks H app cbs).gpu_device ≠ 0 := by
  unfold SDL_AppInit at hinit ⊢
  cases h1 : env.SDL_Init <;> cases h4 : env.SDL_ClaimWindowForGPUDevice <;>
    by_cases h2 : env.SDL_CreateWindow = 0 <;> by_cases h3 : env.SDL_CreateGPUDevice = 0 <;>
    simp [h1, h2, h3, h4] at hinit
  refine ⟨{ window := env.SDL_CreateWindow, gpu_device := env.SDL_CreateGPUDevice },
    by simp [h1, h2, h3, h4], h2, h3, ?_⟩
  intro cbs
  have h := runCallbacks_handles H cbs
    { window := env.SDL_CreateWindow, gpu_device := env.SDL_CreateGPUDevice }
  refine ⟨h.1, h.2, ?_, ?_⟩
  · rw [h.1]; exact h2
  · rw [h.2]; exact h3

/-- Witness for C10: the successful init `initAllOk`. -/
theorem handles_non_null_and_stable_witness :
    (SDL_AppInit sdl3Headers initAllOk).result = .SDL_APP_CONTINUE ∧
    ∃ app : App, (SDL_AppInit sdl3Headers initAllOk).appstate = some app ∧
      app.window ≠ 0 ∧ app.gpu_device ≠ 0 ∧
      ∀ cbs : List Callback,
        (runCallbacks sdl3Headers app cbs).window = app.window ∧
        (runCallbacks sdl3Headers app cbs).gpu_device = app.gpu_device ∧
        (runCallbacks sdl3Headers app cbs).window ≠ 0 ∧
        (runCallbacks sdl3Headers app cbs).gpu_device ≠ 0 :=
  ⟨by decide, handles_non_null_and_stable sdl3Headers initAllOk (by decide)⟩

end Sdl3GpuImgui
